import Mathlib

/-!
Shallow embedding of the kalshi_bot repository (src/utils.py and
src/kalshiClient.py) and proofs about its specification claims.

Conventions of the embedding:
* Python floats (datetime timestamps) are modelled as rationals.
* Python `int(x)` on a float is truncation toward zero (`pyInt`).
* The loaded RSA private key is modelled as an abstract signing oracle
  `String → String` (payload ↦ base64 signature); the cryptographic
  content of RSA-PSS is outside the scope of the claims settled here.
* HTTP transport is modelled by passing the response explicitly; the
  response body is modelled as an already-parsed JSON value, which is
  what `response.json()` returns on the success path.
-/

/-- Truncation toward zero on rationals: the behaviour of Python `int()`
applied to a float value. -/
def pyInt (q : ℚ) : ℤ := if 0 ≤ q then ⌊q⌋ else ⌈q⌉

/-- A timezone-aware Python `datetime`: the absolute instant it denotes
(seconds since the Unix epoch, as a rational) together with its timezone's
UTC offset in seconds.  `astimezone` changes only the offset, never the
instant. -/
structure AwareDatetime where
  instant : ℚ
  utcOffsetSeconds : ℤ

/-- Embeds `dt.astimezone(datetime.timezone.utc)`: same instant, offset 0. -/
def AwareDatetime.astimezoneUtc (dt : AwareDatetime) : AwareDatetime :=
  { instant := dt.instant, utcOffsetSeconds := 0 }

/-- Embeds `datetime.timestamp()`: the instant as (fractional) seconds since
the Unix epoch, independent of the timezone attached to the value. -/
def AwareDatetime.timestamp (dt : AwareDatetime) : ℚ := dt.instant

/-- Embeds `utils.get_seconds_since_epoch`:
`dt_utc = dt.astimezone(datetime.timezone.utc); return int(dt_utc.timestamp())`. -/
def get_seconds_since_epoch (dt : AwareDatetime) : ℤ :=
  pyInt dt.astimezoneUtc.timestamp

/-- Embeds `utils.get_curr_time_milliseconds`:
`int(datetime.datetime.now().timestamp() * 1000)`.  The current wall-clock
time (epoch seconds) is passed explicitly as `now`. -/
def get_curr_time_milliseconds (now : ℚ) : ℤ := pyInt (now * 1000)

/-- Embeds `utils.get_curr_time_seconds`:
`int(datetime.datetime.now().timestamp())`. -/
def get_curr_time_seconds (now : ℚ) : ℤ := pyInt now

/-- Embeds `utils.get_period_interval`: a `match` on the literal strings
`"minute"`, `"hour"`, `"day"`; every other string raises
(`Exception("period_interval must be 'minute', 'hour', or 'day")`),
modelled as `Except.error` (apostrophes of the source message elided). -/
def get_period_interval (s : String) : Except String ℤ :=
  match s with
  | "minute" => .ok 1
  | "hour" => .ok (60 * 1)
  | "day" => .ok (24 * 60 * 1)
  | _ => .error "period_interval must be minute, hour, or day"

/-- Scalar values a wrapper puts into the query-parameter mapping. -/
inductive PyVal where
  | str (s : String)
  | int (n : ℤ)
  | bool (b : Bool)
deriving DecidableEq

/-- URL-encoding of one scalar, as the `requests` library stringifies it
(percent-encoding of reserved characters is elided: no value used by the
claims contains any). -/
def encodeVal : PyVal → String
  | .str s => s
  | .int n => toString n
  | .bool b => if b then "True" else "False"

/-- Builds the Python params dict of an endpoint wrapper: the wrappers all
start from `params = {}` and insert each key only under
`if arg is not None`, so the dict (in insertion order) is exactly the
source-order field list with the unset entries dropped. -/
def buildParams : List (String × Option PyVal) → List (String × PyVal)
  | [] => []
  | (_, none) :: rest => buildParams rest
  | (k, some v) :: rest => (k, v) :: buildParams rest

/-- Encoded query string of a params mapping, `k1=v1&k2=v2&...`. -/
def encodeParams (ps : List (String × PyVal)) : String :=
  String.intercalate "&" (ps.map (fun kv => kv.1 ++ "=" ++ encodeVal kv.2))

def qMarkChar : Char := '?'

def slashChar : Char := '/'

/-- Does the URL already carry a query part (contain a `?`)? -/
def urlHasQuery (s : String) : Bool := s.toList.any (fun c => c == qMarkChar)

/-- Models how `requests` prepares the final URL from the `url=` argument
and the `params=` mapping: an empty mapping leaves the URL untouched;
otherwise the encoded mapping is appended to an existing query part with
`&`, or starts one with `?`. -/
def buildUrl (url : String) (ps : List (String × PyVal)) : String :=
  if ps.isEmpty then url
  else if urlHasQuery url then url ++ "&" ++ encodeParams ps
  else url ++ "?" ++ encodeParams ps

/-- The three authentication headers returned by
`KalshiClient._generate_headers`. -/
structure HeaderSet where
  accessKey : String
  accessSignature : String
  accessTimestamp : String

/-- The client's per-instance data set in `KalshiClient.__init__` and read
by every later call.  The loaded private key is abstracted to the signing
oracle it provides (payload ↦ base64-encoded RSA-PSS signature). -/
structure KalshiClient where
  key_id : String
  private_key : String → String
  base_url : String

/-- Embeds Python `method.upper()` (the methods used are all ASCII). -/
def pyUpper (s : String) : String := String.mk (s.toList.map Char.toUpper)

/-- The exact payload string `f"{timestamp_str}.{method.upper()}.{path}"`
built inside `KalshiClient._generate_headers`. -/
def signPayload (timestampStr method path : String) : String :=
  timestampStr ++ "." ++ pyUpper method ++ "." ++ path

/-- Embeds `KalshiClient._generate_headers(method, path)`.  The current
wall-clock time is passed explicitly as `now` (epoch seconds). -/
def generateHeaders (c : KalshiClient) (now : ℚ) (method path : String) :
    HeaderSet :=
  let timestampStr := toString (get_curr_time_milliseconds now)
  { accessKey := c.key_id
    accessSignature := c.private_key (signPayload timestampStr method path)
    accessTimestamp := timestampStr }

/-- A parsed JSON value, the result of `response.json()`. -/
inductive Jval where
  | null
  | jbool (b : Bool)
  | jnum (n : ℤ)
  | jstr (s : String)
  | jarr (xs : List Jval)
  | jobj (kvs : List (String × Jval))

/-- What an endpoint wrapper hands to `KalshiClient._request`: HTTP method,
endpoint string, query-parameter mapping and optional JSON body. -/
structure Req where
  method : String
  endpoint : String
  params : List (String × PyVal)
  data : Option Jval

/-- Embeds Python `endpoint.startswith("/")`: true iff the first character
is a slash. -/
def startsWithSlash (s : String) : Bool :=
  match s.toList with
  | [] => false
  | c :: _ => c == slashChar

/-- The path normalization at the top of `KalshiClient._request`:
`path = endpoint if endpoint.startswith("/") else "/" + endpoint`. -/
def normalizePath (endpoint : String) : String :=
  if startsWithSlash endpoint then endpoint else "/" ++ endpoint

/-- Everything `KalshiClient._request` hands to `session.request`, plus
(for the theorems) the `path` argument it passed to `_generate_headers`. -/
structure Dispatched where
  method : String
  url : String
  signedPath : String
  headers : HeaderSet
  params : List (String × PyVal)
  data : Option Jval

/-- Embeds the request-building half of `KalshiClient._request(method,
endpoint, params, data)`: normalize the path, concatenate the base URL,
generate headers from the normalized path, and pass method, url, headers,
params and body on to `session.request`. -/
def requestDispatch (c : KalshiClient) (now : ℚ) (r : Req) : Dispatched :=
  let path := if startsWithSlash r.endpoint then r.endpoint else "/" ++ r.endpoint
  { method := pyUpper r.method
    url := c.base_url ++ path
    signedPath := path
    headers := generateHeaders c now r.method path
    params := r.params
    data := r.data }

/-- The final URL the HTTP layer sends, after `requests` merges the
`params=` mapping into the URL built by `_request`. -/
def preparedUrl (d : Dispatched) : String := buildUrl d.url d.params

/-- An HTTP response as the client sees it: status code and parsed body. -/
structure HttpResponse where
  status : Nat
  body : Jval

/-- The error raised for an HTTP error status, carrying status and body. -/
structure HttpError where
  status : Nat
  body : Jval

/-- Embeds `response.raise_for_status()` of the `requests` library: it
raises `HTTPError` exactly when the status code is in 400..499 (client
error) or 500..599 (server error), and returns normally otherwise. -/
def raiseForStatus (resp : HttpResponse) : Except HttpError Unit :=
  if 400 ≤ resp.status ∧ resp.status < 500 then
    .error { status := resp.status, body := resp.body }
  else if 500 ≤ resp.status ∧ resp.status < 600 then
    .error { status := resp.status, body := resp.body }
  else .ok ()

/-- The response half of `KalshiClient._request`:
`response.raise_for_status(); return response.json()` — exactly one
response is consumed, with no retry path in the source. -/
def handleResponse (resp : HttpResponse) : Except HttpError Jval :=
  match raiseForStatus resp with
  | .error e => .error e
  | .ok _ => .ok resp.body

/-- One full `KalshiClient._request` call as a state transition on the
client: the body of `_request` contains no assignment to any attribute of
`self`, so the client state after the call is the state before it. -/
def requestStateful (c : KalshiClient) (now : ℚ) (r : Req)
    (resp : HttpResponse) : KalshiClient × Dispatched × Except HttpError Jval :=
  (c, requestDispatch c now r, handleResponse resp)

/-! ### Endpoint wrappers

Each wrapper with optional arguments is embedded as a pure function from
its (optional) arguments to the `Req` it hands to `_request` via `_get`.
The params mapping is built exactly as in the source: start from an empty
dict, insert each key in source order only when the argument `is not
None`. -/

/-- Embeds `KalshiClient.get_quotes`. -/
def get_quotes (cursor limit market_ticker event_ticker status
    quote_creator_user_id rfq_creator_user_id rfq_id : Option PyVal) : Req :=
  { method := "GET", endpoint := "/communications/quotes"
    params := buildParams
      [("cursor", cursor), ("limit", limit), ("market_ticker", market_ticker),
       ("event_ticker", event_ticker), ("status", status),
       ("quote_creator_user_id", quote_creator_user_id),
       ("rfq_creator_user_id", rfq_creator_user_id), ("rfq_id", rfq_id)]
    data := none }

/-- Embeds `KalshiClient.get_rfqs`. -/
def get_rfqs (cursor limit market_ticker event_ticker status
    creator_user_id : Option PyVal) : Req :=
  { method := "GET", endpoint := "/communications/rfqs"
    params := buildParams
      [("cursor", cursor), ("limit", limit), ("market_ticker", market_ticker),
       ("event_ticker", event_ticker), ("status", status),
       ("creator_user_id", creator_user_id)]
    data := none }

/-- Embeds `KalshiClient.get_events`. -/
def get_events (limit cursor status series_ticker
    with_nested_markets : Option PyVal) : Req :=
  { method := "GET", endpoint := "/events"
    params := buildParams
      [("limit", limit), ("cursor", cursor), ("status", status),
       ("series_ticker", series_ticker),
       ("with_nested_markets", with_nested_markets)]
    data := none }

/-- Embeds `KalshiClient.get_event` (path-interpolated `event_ticker`). -/
def get_event (event_ticker : String) (with_nested_markets : Option PyVal) : Req :=
  { method := "GET", endpoint := "/events/" ++ event_ticker
    params := buildParams [("with_nested_markets", with_nested_markets)]
    data := none }

/-- Embeds `KalshiClient.get_markets`: note the hardcoded endpoint string
`"/markets?limit=1000"` passed to `_get` in the source. -/
def get_markets (limit cursor event_ticker series_ticker max_close_ts
    min_close_ts status tickers : Option PyVal) : Req :=
  { method := "GET", endpoint := "/markets?limit=1000"
    params := buildParams
      [("limit", limit), ("cursor", cursor), ("event_ticker", event_ticker),
       ("series_ticker", series_ticker), ("max_close_ts", max_close_ts),
       ("min_close_ts", min_close_ts), ("status", status),
       ("tickers", tickers)]
    data := none }

/-- Embeds `KalshiClient.get_trades`. -/
def get_trades (cursor limit ticker min_ts max_ts : Option PyVal) : Req :=
  { method := "GET", endpoint := "/markets/trades"
    params := buildParams
      [("cursor", cursor), ("limit", limit), ("ticker", ticker),
       ("min_ts", min_ts), ("max_ts", max_ts)]
    data := none }

/-- Embeds `KalshiClient.get_market_orderbook`. -/
def get_market_orderbook (market_ticker : String) (depth : Option PyVal) : Req :=
  { method := "GET", endpoint := "/markets/" ++ market_ticker ++ "/orderbook"
    params := buildParams [("depth", depth)]
    data := none }

/-- Embeds `KalshiClient.get_series_list`. -/
def get_series_list (category include_product_metadata : Option PyVal) : Req :=
  { method := "GET", endpoint := "/series/"
    params := buildParams
      [("category", category),
       ("include_product_metadata", include_product_metadata)]
    data := none }

/-- Embeds `KalshiClient.get_milestones`: `limit` is a required argument,
seeded into the dict unconditionally; the rest are optional (note the
source maps argument `_type` to query key `"type"`). -/
def get_milestones (limit : PyVal) (minimum_start_date category _type
    related_event_ticker cursor : Option PyVal) : Req :=
  { method := "GET", endpoint := "/milestones/"
    params := ("limit", limit) :: buildParams
      [("minimum_start_date", minimum_start_date), ("category", category),
       ("type", _type), ("related_event_ticker", related_event_ticker),
       ("cursor", cursor)]
    data := none }

/-- Embeds `KalshiClient.get_fills`. -/
def get_fills (ticker min_ts max_ts limit cursor : Option PyVal) : Req :=
  { method := "GET", endpoint := "/portfolio/fills"
    params := buildParams
      [("ticker", ticker), ("min_ts", min_ts), ("max_ts", max_ts),
       ("limit", limit), ("cursor", cursor)]
    data := none }

/-- Embeds `KalshiClient.get_orders`. -/
def get_orders (ticker event_ticker min_ts max_ts status cursor
    limit : Option PyVal) : Req :=
  { method := "GET", endpoint := "/portfolio/orders"
    params := buildParams
      [("ticker", ticker), ("event_ticker", event_ticker), ("min_ts", min_ts),
       ("max_ts", max_ts), ("status", status), ("cursor", cursor),
       ("limit", limit)]
    data := none }

/-- Embeds `KalshiClient.get_positions`. -/
def get_positions (cursor limit count_filter settlement_status ticker
    event_ticker : Option PyVal) : Req :=
  { method := "GET", endpoint := "/portfolio/positions"
    params := buildParams
      [("cursor", cursor), ("limit", limit), ("count_filter", count_filter),
       ("settlement_status", settlement_status), ("ticker", ticker),
       ("event_ticker", event_ticker)]
    data := none }

/-- Embeds `KalshiClient.get_portfolio_settlements`. -/
def get_portfolio_settlements (limit min_ts max_ts cursor : Option PyVal) : Req :=
  { method := "GET", endpoint := "/portfolio/settlements"
    params := buildParams
      [("limit", limit), ("min_ts", min_ts), ("max_ts", max_ts),
       ("cursor", cursor)]
    data := none }

/-! The remaining dispatching fixed-endpoint wrappers take no query
parameters at all: each is a single `self._get(literal)` or
`self._post(literal, data)` call (`_get`'s `params` defaults to `None`,
which `requests` treats as the empty mapping). -/

/-- Embeds `KalshiClient.get_api_version`. -/
def get_api_version : Req :=
  { method := "GET", endpoint := "/api_version", params := [], data := none }

/-- Embeds `KalshiClient.get_communications_id`. -/
def get_communications_id : Req :=
  { method := "GET", endpoint := "/communications/id", params := [], data := none }

/-- Embeds `KalshiClient.get_announcements`. -/
def get_announcements : Req :=
  { method := "GET", endpoint := "/exchange/announcements", params := [], data := none }

/-- Embeds `KalshiClient.get_schedule`. -/
def get_schedule : Req :=
  { method := "GET", endpoint := "/exchange/schedule", params := [], data := none }

/-- Embeds `KalshiClient.get_status`. -/
def get_status : Req :=
  { method := "GET", endpoint := "/exchange/status", params := [], data := none }

/-- Embeds `KalshiClient.get_user_data_timestamp`. -/
def get_user_data_timestamp : Req :=
  { method := "GET", endpoint := "/exchange/user_data_timestamp", params := [], data := none }

/-- Embeds `KalshiClient.get_balance`. -/
def get_balance : Req :=
  { method := "GET", endpoint := "/portfolio/balance", params := [], data := none }

/-- Embeds `KalshiClient.create_order`:
`self._post("/portfolio/orders", data)`. -/
def create_order (data : Jval) : Req :=
  { method := "POST", endpoint := "/portfolio/orders", params := []
    data := some data }

/-- Embeds `KalshiClient.batch_create_orders`:
`self._post("/portfolio/orders/batched", data)`. -/
def batch_create_orders (data : Jval) : Req :=
  { method := "POST", endpoint := "/portfolio/orders/batched", params := []
    data := some data }

/-- Embeds `KalshiClient.get_portfolio_resting_order_total_value`. -/
def get_portfolio_resting_order_total_value : Req :=
  { method := "GET", endpoint := "/portfolio/summary/resting_order_total_value"
    params := [], data := none }

/-! ### Python call binding

`create_quote` and `create_rfq` call `self._post(endpoint, params=params)`
although `_post(self, endpoint, data=None)` has no `params` parameter, and
`batch_cancel_orders` calls `self._delete(endpoint, data)` although
`_delete(self, endpoint)` takes a single argument; CPython rejects both
call shapes with `TypeError` while binding arguments, before the callee's
body (and hence any HTTP request) runs. -/

/-- Parameter names of `KalshiClient._post` after `self`. -/
def postParamNames : List String := ["endpoint", "data"]

/-- Parameter names of `KalshiClient._delete` after `self`. -/
def deleteParamNames : List String := ["endpoint"]

/-- CPython argument binding for a callee whose parameters (after `self`)
are `paramNames`, all positional-or-keyword with defaults: the call binds
iff there are no surplus positional arguments and every keyword names a
parameter not already filled positionally. -/
def bindArgs (paramNames : List String) (nPositional : Nat)
    (kwNames : List String) : Bool :=
  decide (nPositional ≤ paramNames.length) &&
    kwNames.all (fun k =>
      paramNames.contains k && !((paramNames.take nPositional).contains k))

/-- Outcome of invoking a wrapper: either a request descriptor reaches the
HTTP layer, or a `TypeError` is raised first and nothing is dispatched. -/
inductive CallOutcome where
  | issued (r : Req)
  | typeErr (msg : String)

/-- Does the outcome carry a `TypeError` (so no request was issued)? -/
def CallOutcome.isTypeErr : CallOutcome → Bool
  | .issued _ => false
  | .typeErr _ => true

/-- Embeds a call of `KalshiClient.create_quote`: the params dict is built,
then `self._post("/communications/quotes", params=params)` is evaluated —
one positional argument plus the keyword `params`, which `_post` does not
accept. -/
def create_quote (rfq_id yes_bid no_bid rest_remainder : Option PyVal) :
    CallOutcome :=
  let ps := buildParams
    [("rfq_id", rfq_id), ("yes_bid", yes_bid), ("no_bid", no_bid),
     ("rest_remainder", rest_remainder)]
  if bindArgs postParamNames 1 ["params"] then
    .issued { method := "POST", endpoint := "/communications/quotes"
              params := ps, data := none }
  else .typeErr "got an unexpected keyword argument"

/-- Embeds a call of `KalshiClient.create_rfq`: same ill-formed call shape
`self._post("/communications/rfqs", params=params)`. -/
def create_rfq (market_ticker contracts rest_remainder : Option PyVal) :
    CallOutcome :=
  let ps := buildParams
    [("market_ticker", market_ticker), ("contracts", contracts),
     ("rest_remainder", rest_remainder)]
  if bindArgs postParamNames 1 ["params"] then
    .issued { method := "POST", endpoint := "/communications/rfqs"
              params := ps, data := none }
  else .typeErr "got an unexpected keyword argument"

/-- Embeds a call of `KalshiClient.batch_cancel_orders`:
`self._delete("/portfolio/orders/batched", data)` passes two positional
arguments to a callee accepting one. -/
def batch_cancel_orders (data : Jval) : CallOutcome :=
  if bindArgs deleteParamNames 2 [] then
    .issued { method := "DELETE", endpoint := "/portfolio/orders/batched"
              params := [], data := some data }
  else .typeErr "takes 2 positional arguments but 3 were given"

/-! ### Substring helper for theorem statements -/

/-- Is `pat` an initial segment of `l`? -/
def hasPfx : List Char → List Char → Bool
  | _, [] => true
  | [], _ :: _ => false
  | a :: as, b :: bs => a == b && hasPfx as bs

/-- Does `pat` occur contiguously inside `l`? -/
def hasSubList (l pat : List Char) : Bool :=
  match l with
  | [] => pat.isEmpty
  | _ :: rest => hasPfx l pat || hasSubList rest pat

/-- Does the string `pat` occur contiguously inside `s`? -/
def strHasSub (s pat : String) : Bool := hasSubList s.toList pat.toList

/-! ### Helper lemmas -/

/-- Keys present in a built params mapping are exactly the keys of the
fields that were set. -/
theorem mem_keys_buildParams (fields : List (String × Option PyVal)) (k : String) :
    k ∈ (buildParams fields).map Prod.fst ↔ ∃ v, (k, some v) ∈ fields := by
  induction fields with
  | nil => simp [buildParams]
  | cons kv rest ih =>
    rcases kv with ⟨k', v⟩
    cases v with
    | none => simp [buildParams, ih]
    | some a =>
      simp only [buildParams, List.map_cons, List.mem_cons, ih, Prod.mk.injEq]
      constructor
      · rintro (rfl | ⟨w, hw⟩)
        · exact ⟨a, Or.inl ⟨rfl, rfl⟩⟩
        · exact ⟨w, Or.inr hw⟩
      · rintro ⟨w, (⟨rfl, hv⟩ | hw)⟩
        · exact Or.inl rfl
        · exact Or.inr ⟨w, hw⟩

/-- The normalization in `_request` always yields a path starting with `/`. -/
theorem startsWithSlash_normalizePath (e : String) :
    startsWithSlash (normalizePath e) = true := by
  unfold normalizePath
  split
  · assumption
  · rfl

/-- A fixed client value used by the closed (fully concrete) theorems. -/
def sampleClient : KalshiClient :=
  { key_id := "sample-key-id"
    private_key := fun m => m
    base_url := "https://api.elections.kalshi.com/trade-api/v2" }

/-! ### Claims -/

/-- Claim C1, counterexample: the claim says the signed message passed to
header generation never contains query-string content, for every endpoint
wrapper including `get_markets`; but `get_markets` hands `_request` the
endpoint `"/markets?limit=1000"`, so the path passed to
`_generate_headers` — and hence the signed message itself — contains the
query fragment `limit=1000`. -/
theorem claim_C1_counterexample :
    (requestDispatch sampleClient 0
        (get_markets none none none none none none none none)).signedPath =
      "/markets?limit=1000" ∧
    strHasSub "/markets?limit=1000" "limit=1000" = true ∧
    strHasSub "/markets?limit=1000" "?" = true := by
  refine ⟨rfl, by decide, by decide⟩

/-- Claim C1, amended: for every request dispatched by the client the
signed message contains exactly the normalized endpoint string — the
`params` mapping never contributes to it, so caller-supplied query
parameters are never signed.  Every fixed-endpoint wrapper other than
`get_markets` passes an endpoint free of query-string content; `get_markets`
passes `"/markets?limit=1000"`, whose query fragment therefore does appear
in its signed message. -/
theorem claim_C1_amended :
    (∀ (c : KalshiClient) (now : ℚ) (r : Req),
      (requestDispatch c now r).signedPath = normalizePath r.endpoint ∧
      (requestDispatch c now r).headers.accessSignature =
        c.private_key (signPayload (toString (get_curr_time_milliseconds now))
          r.method (normalizePath r.endpoint)) ∧
      (∀ ps, (requestDispatch c now
          { method := r.method, endpoint := r.endpoint, params := ps,
            data := r.data }).headers = (requestDispatch c now r).headers)) ∧
    (∀ a b c d e f g h, strHasSub (get_quotes a b c d e f g h).endpoint "?" = false) ∧
    (∀ a b c d e f, strHasSub (get_rfqs a b c d e f).endpoint "?" = false) ∧
    (∀ a b c d e, strHasSub (get_events a b c d e).endpoint "?" = false) ∧
    (∀ a b c d e, strHasSub (get_trades a b c d e).endpoint "?" = false) ∧
    (∀ a b, strHasSub (get_series_list a b).endpoint "?" = false) ∧
    (∀ l a b c d e, strHasSub (get_milestones l a b c d e).endpoint "?" = false) ∧
    (∀ a b c d e, strHasSub (get_fills a b c d e).endpoint "?" = false) ∧
    (∀ a b c d e f g, strHasSub (get_orders a b c d e f g).endpoint "?" = false) ∧
    (∀ a b c d e f, strHasSub (get_positions a b c d e f).endpoint "?" = false) ∧
    (∀ a b c d, strHasSub (get_portfolio_settlements a b c d).endpoint "?" = false) ∧
    strHasSub get_api_version.endpoint "?" = false ∧
    strHasSub get_communications_id.endpoint "?" = false ∧
    strHasSub get_announcements.endpoint "?" = false ∧
    strHasSub get_schedule.endpoint "?" = false ∧
    strHasSub get_status.endpoint "?" = false ∧
    strHasSub get_user_data_timestamp.endpoint "?" = false ∧
    strHasSub get_balance.endpoint "?" = false ∧
    (∀ d, strHasSub (create_order d).endpoint "?" = false) ∧
    (∀ d, strHasSub (batch_create_orders d).endpoint "?" = false) ∧
    strHasSub get_portfolio_resting_order_total_value.endpoint "?" = false ∧
    (∀ a b c d e f g h,
      strHasSub (get_markets a b c d e f g h).endpoint "limit=1000" = true) := by
  refine ⟨?_, ?_, ?_, ?_, ?_, ?_, ?_, ?_, ?_, ?_, ?_, ?_, ?_, ?_, ?_, ?_, ?_,
    ?_, ?_, ?_, ?_, ?_⟩
  · intro c now r
    exact ⟨rfl, rfl, fun ps => rfl⟩
  all_goals (intros; rfl)

/-- Claim C2: `get_markets()` with no arguments dispatches to a URL whose
query contains `limit=1000`; `get_markets(limit=50)` dispatches to a URL
whose query contains both `limit=1000` (from the hardcoded endpoint
fragment) and `limit=50` (from the params mapping), as a duplicate key. -/
theorem claim_C2 :
    preparedUrl (requestDispatch sampleClient 0
        (get_markets none none none none none none none none)) =
      "https://api.elections.kalshi.com/trade-api/v2/markets?limit=1000" ∧
    strHasSub "https://api.elections.kalshi.com/trade-api/v2/markets?limit=1000"
      "limit=1000" = true ∧
    preparedUrl (requestDispatch sampleClient 0
        (get_markets (some (.int 50)) none none none none none none none)) =
      "https://api.elections.kalshi.com/trade-api/v2/markets?limit=1000&limit=50" ∧
    strHasSub "https://api.elections.kalshi.com/trade-api/v2/markets?limit=1000&limit=50"
      "limit=1000" = true ∧
    strHasSub "https://api.elections.kalshi.com/trade-api/v2/markets?limit=1000&limit=50"
      "limit=50" = true := by
  refine ⟨by decide, by decide, by decide, by decide, by decide⟩

/-- Claim C3, counterexample: the claim says every response with a status
outside 200–299 fails with an HttpError; but `raise_for_status` raises only
for statuses 400–599, so a 304 response (not 2xx) raises nothing and its
parsed body is returned. -/
theorem claim_C3_counterexample :
    handleResponse { status := 304, body := Jval.null } = Except.ok Jval.null ∧
    (304 < 200 ∨ 299 < 304) :=
  ⟨rfl, by decide⟩

/-- Claim C3, amended: a dispatched request fails with an HttpError
carrying the response's status code and body exactly when the status is in
400–599 (the range `raise_for_status` raises for), with no retry attempted
(the source consumes exactly one response); for every other status — in
particular every 2xx — the parsed JSON body (object, array, scalar or
null) is returned unchanged. -/
theorem claim_C3_amended (resp : HttpResponse) :
    (400 ≤ resp.status ∧ resp.status < 600 →
      handleResponse resp =
        Except.error { status := resp.status, body := resp.body }) ∧
    (resp.status < 400 ∨ 600 ≤ resp.status →
      handleResponse resp = Except.ok resp.body) ∧
    (200 ≤ resp.status ∧ resp.status < 300 →
      handleResponse resp = Except.ok resp.body) := by
  refine ⟨?_, ?_, ?_⟩ <;> intro h <;>
    (unfold handleResponse raiseForStatus; split_ifs with h1 h2 <;>
      first | rfl | omega)

/-- Witness for the amended claim C3: a 404 response with a string body
raises HttpError with status 404 and that body; a 200 response with a JSON
array body returns the array unchanged. -/
theorem claim_C3_amended_witness :
    handleResponse { status := 404, body := Jval.jstr "not found" } =
      Except.error { status := 404, body := Jval.jstr "not found" } ∧
    handleResponse { status := 200, body := Jval.jarr [Jval.jnum 1] } =
      Except.ok (Jval.jarr [Jval.jnum 1]) :=
  ⟨(claim_C3_amended { status := 404, body := Jval.jstr "not found" }).1
      (by decide),
   (claim_C3_amended { status := 200, body := Jval.jarr [Jval.jnum 1] }).2.2
      (by decide)⟩

/-- Claim C4: no endpoint wrapper emits a query key for an argument left
unset — for every wrapper and every optional argument, passing `none`
keeps that argument's key out of the dispatched params mapping (so it
cannot appear in the query string, not even as an empty string); and
`get_events()` with all arguments unset dispatches to `/events` with an
empty params mapping and a final URL with no query string at all. -/
theorem claim_C4 :
    (∀ cursor limit market_ticker event_ticker status quote_creator_user_id
        rfq_creator_user_id rfq_id : Option PyVal,
      let ks := (get_quotes cursor limit market_ticker event_ticker status
        quote_creator_user_id rfq_creator_user_id rfq_id).params.map Prod.fst
      (cursor = none → "cursor" ∉ ks) ∧
      (limit = none → "limit" ∉ ks) ∧
      (market_ticker = none → "market_ticker" ∉ ks) ∧
      (event_ticker = none → "event_ticker" ∉ ks) ∧
      (status = none → "status" ∉ ks) ∧
      (quote_creator_user_id = none → "quote_creator_user_id" ∉ ks) ∧
      (rfq_creator_user_id = none → "rfq_creator_user_id" ∉ ks) ∧
      (rfq_id = none → "rfq_id" ∉ ks)) ∧
    (∀ cursor limit market_ticker event_ticker status
        creator_user_id : Option PyVal,
      let ks := (get_rfqs cursor limit market_ticker event_ticker status
        creator_user_id).params.map Prod.fst
      (cursor = none → "cursor" ∉ ks) ∧
      (limit = none → "limit" ∉ ks) ∧
      (market_ticker = none → "market_ticker" ∉ ks) ∧
      (event_ticker = none → "event_ticker" ∉ ks) ∧
      (status = none → "status" ∉ ks) ∧
      (creator_user_id = none → "creator_user_id" ∉ ks)) ∧
    (∀ limit cursor status series_ticker with_nested_markets : Option PyVal,
      let ks := (get_events limit cursor status series_ticker
        with_nested_markets).params.map Prod.fst
      (limit = none → "limit" ∉ ks) ∧
      (cursor = none → "cursor" ∉ ks) ∧
      (status = none → "status" ∉ ks) ∧
      (series_ticker = none → "series_ticker" ∉ ks) ∧
      (with_nested_markets = none → "with_nested_markets" ∉ ks)) ∧
    (∀ (event_ticker : String) (with_nested_markets : Option PyVal),
      with_nested_markets = none →
        "with_nested_markets" ∉
          (get_event event_ticker with_nested_markets).params.map Prod.fst) ∧
    (∀ limit cursor event_ticker series_ticker max_close_ts min_close_ts
        status tickers : Option PyVal,
      let ks := (get_markets limit cursor event_ticker series_ticker
        max_close_ts min_close_ts status tickers).params.map Prod.fst
      (limit = none → "limit" ∉ ks) ∧
      (cursor = none → "cursor" ∉ ks) ∧
      (event_ticker = none → "event_ticker" ∉ ks) ∧
      (series_ticker = none → "series_ticker" ∉ ks) ∧
      (max_close_ts = none → "max_close_ts" ∉ ks) ∧
      (min_close_ts = none → "min_close_ts" ∉ ks) ∧
      (status = none → "status" ∉ ks) ∧
      (tickers = none → "tickers" ∉ ks)) ∧
    (∀ cursor limit ticker min_ts max_ts : Option PyVal,
      let ks := (get_trades cursor limit ticker min_ts max_ts).params.map Prod.fst
      (cursor = none → "cursor" ∉ ks) ∧
      (limit = none → "limit" ∉ ks) ∧
      (ticker = none → "ticker" ∉ ks) ∧
      (min_ts = none → "min_ts" ∉ ks) ∧
      (max_ts = none → "max_ts" ∉ ks)) ∧
    (∀ (market_ticker : String) (depth : Option PyVal),
      depth = none →
        "depth" ∉ (get_market_orderbook market_ticker depth).params.map Prod.fst) ∧
    (∀ category include_product_metadata : Option PyVal,
      let ks := (get_series_list category
        include_product_metadata).params.map Prod.fst
      (category = none → "category" ∉ ks) ∧
      (include_product_metadata = none →
        "include_product_metadata" ∉ ks)) ∧
    (∀ (limit : PyVal)
        (minimum_start_date category _type related_event_ticker
          cursor : Option PyVal),
      let ks := (get_milestones limit minimum_start_date category _type
        related_event_ticker cursor).params.map Prod.fst
      (minimum_start_date = none → "minimum_start_date" ∉ ks) ∧
      (category = none → "category" ∉ ks) ∧
      (_type = none → "type" ∉ ks) ∧
      (related_event_ticker = none → "related_event_ticker" ∉ ks) ∧
      (cursor = none → "cursor" ∉ ks)) ∧
    (∀ ticker min_ts max_ts limit cursor : Option PyVal,
      let ks := (get_fills ticker min_ts max_ts limit cursor).params.map Prod.fst
      (ticker = none → "ticker" ∉ ks) ∧
      (min_ts = none → "min_ts" ∉ ks) ∧
      (max_ts = none → "max_ts" ∉ ks) ∧
      (limit = none → "limit" ∉ ks) ∧
      (cursor = none → "cursor" ∉ ks)) ∧
    (∀ ticker event_ticker min_ts max_ts status cursor limit : Option PyVal,
      let ks := (get_orders ticker event_ticker min_ts max_ts status cursor
        limit).params.map Prod.fst
      (ticker = none → "ticker" ∉ ks) ∧
      (event_ticker = none → "event_ticker" ∉ ks) ∧
      (min_ts = none → "min_ts" ∉ ks) ∧
      (max_ts = none → "max_ts" ∉ ks) ∧
      (status = none → "status" ∉ ks) ∧
      (cursor = none → "cursor" ∉ ks) ∧
      (limit = none → "limit" ∉ ks)) ∧
    (∀ cursor limit count_filter settlement_status ticker
        event_ticker : Option PyVal,
      let ks := (get_positions cursor limit count_filter settlement_status
        ticker event_ticker).params.map Prod.fst
      (cursor = none → "cursor" ∉ ks) ∧
      (limit = none → "limit" ∉ ks) ∧
      (count_filter = none → "count_filter" ∉ ks) ∧
      (settlement_status = none → "settlement_status" ∉ ks) ∧
      (ticker = none → "ticker" ∉ ks) ∧
      (event_ticker = none → "event_ticker" ∉ ks)) ∧
    (∀ limit min_ts max_ts cursor : Option PyVal,
      let ks := (get_portfolio_settlements limit min_ts max_ts
        cursor).params.map Prod.fst
      (limit = none → "limit" ∉ ks) ∧
      (min_ts = none → "min_ts" ∉ ks) ∧
      (max_ts = none → "max_ts" ∉ ks) ∧
      (cursor = none → "cursor" ∉ ks)) ∧
    (∀ (c : KalshiClient) (now : ℚ),
      (get_events none none none none none).params = [] ∧
      preparedUrl (requestDispatch c now (get_events none none none none none)) =
        c.base_url ++ "/events" ∧
      (requestDispatch c now (get_events none none none none none)).signedPath =
        "/events") := by
  refine ⟨?_, ?_, ?_, ?_, ?_, ?_, ?_, ?_, ?_, ?_, ?_, ?_, ?_, ?_⟩
  · intro a b c d e f g h
    refine ⟨?_, ?_, ?_, ?_, ?_, ?_, ?_, ?_⟩ <;>
      (intro hn; subst hn; rw [get_quotes, mem_keys_buildParams]; simp)
  · intro a b c d e f
    refine ⟨?_, ?_, ?_, ?_, ?_, ?_⟩ <;>
      (intro hn; subst hn; rw [get_rfqs, mem_keys_buildParams]; simp)
  · intro a b c d e
    refine ⟨?_, ?_, ?_, ?_, ?_⟩ <;>
      (intro hn; subst hn; rw [get_events, mem_keys_buildParams]; simp)
  · intro t w hn
    subst hn
    rw [get_event, mem_keys_buildParams]
    simp
  · intro a b c d e f g h
    refine ⟨?_, ?_, ?_, ?_, ?_, ?_, ?_, ?_⟩ <;>
      (intro hn; subst hn; rw [get_markets, mem_keys_buildParams]; simp)
  · intro a b c d e
    refine ⟨?_, ?_, ?_, ?_, ?_⟩ <;>
      (intro hn; subst hn; rw [get_trades, mem_keys_buildParams]; simp)
  · intro t w hn
    subst hn
    rw [get_market_orderbook, mem_keys_buildParams]
    simp
  · intro a b
    refine ⟨?_, ?_⟩ <;>
      (intro hn; subst hn; rw [get_series_list, mem_keys_buildParams]; simp)
  · intro l a b c d e
    refine ⟨?_, ?_, ?_, ?_, ?_⟩ <;>
      (intro hn; subst hn; rw [get_milestones];
        simp only [List.map_cons, List.mem_cons, mem_keys_buildParams]; simp)
  · intro a b c d e
    refine ⟨?_, ?_, ?_, ?_, ?_⟩ <;>
      (intro hn; subst hn; rw [get_fills, mem_keys_buildParams]; simp)
  · intro a b c d e f g
    refine ⟨?_, ?_, ?_, ?_, ?_, ?_, ?_⟩ <;>
      (intro hn; subst hn; rw [get_orders, mem_keys_buildParams]; simp)
  · intro a b c d e f
    refine ⟨?_, ?_, ?_, ?_, ?_, ?_⟩ <;>
      (intro hn; subst hn; rw [get_positions, mem_keys_buildParams]; simp)
  · intro a b c d
    refine ⟨?_, ?_, ?_, ?_⟩ <;>
      (intro hn; subst hn; rw [get_portfolio_settlements, mem_keys_buildParams]; simp)
  · intro c now
    exact ⟨rfl, rfl, rfl⟩

/-- Witness for claim C4 at concrete inputs: `get_quotes` with everything
unset emits no `cursor` key, `get_fills` with everything unset emits no
`ticker` key, and `get_events` with everything unset has an empty params
mapping. -/
theorem claim_C4_witness :
    "cursor" ∉
      ((get_quotes none none none none none none none none).params.map Prod.fst) ∧
    "ticker" ∉ ((get_fills none none none none none).params.map Prod.fst) ∧
    (get_events none none none none none).params = [] :=
  ⟨(claim_C4.1 none none none none none none none none).1 rfl,
   (claim_C4.2.2.2.2.2.2.2.2.2.1 none none none none none).1 rfl,
   (claim_C4.2.2.2.2.2.2.2.2.2.2.2.2.2 sampleClient 0).1⟩

/-- Claim C5: header generation signs exactly the ASCII message
`"<timestamp>.<METHOD_UPPERCASE>.<path>"`; the timestamp header and the
string embedded in the message are the decimal rendering of the current
wall-clock time truncated to integer milliseconds since the Unix epoch,
and the path `_request` passes to header generation is the endpoint
normalized to begin with `/`. -/
theorem claim_C5 :
    (∀ (c : KalshiClient) (now : ℚ) (r : Req),
      (requestDispatch c now r).signedPath = normalizePath r.endpoint ∧
      (requestDispatch c now r).headers =
        { accessKey := c.key_id
          accessSignature := c.private_key
            (toString (get_curr_time_milliseconds now) ++ "." ++
              pyUpper r.method ++ "." ++ normalizePath r.endpoint)
          accessTimestamp := toString (get_curr_time_milliseconds now) }) ∧
    (∀ e, startsWithSlash (normalizePath e) = true) ∧
    (∀ now : ℚ, 0 ≤ now →
      ((get_curr_time_milliseconds now : ℚ) ≤ now * 1000 ∧
        now * 1000 - 1 < (get_curr_time_milliseconds now : ℚ))) := by
  refine ⟨fun c now r => ⟨rfl, rfl⟩, startsWithSlash_normalizePath, ?_⟩
  intro now h
  unfold get_curr_time_milliseconds pyInt
  rw [if_pos (by positivity)]
  constructor
  · exact_mod_cast Int.floor_le (now * 1000)
  · have := Int.lt_floor_add_one (now * 1000)
    push_cast at this ⊢
    linarith

/-- Witness for claim C5: at wall-clock time 2 (seconds since the epoch)
the millisecond timestamp is an integer within one unit below 2000. -/
theorem claim_C5_witness :
    (0:ℚ) ≤ 2 ∧
    ((get_curr_time_milliseconds 2 : ℚ) ≤ 2 * 1000 ∧
      2 * 1000 - 1 < (get_curr_time_milliseconds 2 : ℚ)) :=
  ⟨by norm_num, claim_C5.2.2 2 (by norm_num)⟩

/-- Claim C6: `get_period_interval` maps `"minute"`, `"hour"`, `"day"` to
1, 60, 1440 respectively and raises for every other string (no case
folding, no partial matching). -/
theorem claim_C6 :
    get_period_interval "minute" = Except.ok 1 ∧
    get_period_interval "hour" = Except.ok 60 ∧
    get_period_interval "day" = Except.ok 1440 ∧
    (∀ s : String, s ≠ "minute" → s ≠ "hour" → s ≠ "day" →
      get_period_interval s =
        Except.error "period_interval must be minute, hour, or day") := by
  refine ⟨rfl, rfl, rfl, ?_⟩
  intro s h1 h2 h3
  unfold get_period_interval
  split
  · exact absurd rfl h1
  · exact absurd rfl h2
  · exact absurd rfl h3
  · rfl

/-- Witness for claim C6: `"hour"` yields 60 and `"week"` (also `"Day"`,
a case variant) raises. -/
theorem claim_C6_witness :
    get_period_interval "hour" = Except.ok 60 ∧
    get_period_interval "week" =
      Except.error "period_interval must be minute, hour, or day" ∧
    get_period_interval "Day" =
      Except.error "period_interval must be minute, hour, or day" :=
  ⟨claim_C6.2.1,
   claim_C6.2.2.2 "week" (by decide) (by decide) (by decide),
   claim_C6.2.2.2 "Day" (by decide) (by decide) (by decide)⟩

/-- Claim C7: the epoch-seconds conversion first converts the
timezone-aware value to UTC — which leaves the denoted instant unchanged
and only rewrites the offset to 0 — and then truncates toward zero (never
rounds) to whole seconds since the Unix epoch. -/
theorem claim_C7 (dt : AwareDatetime) :
    get_seconds_since_epoch dt = pyInt dt.instant ∧
    dt.astimezoneUtc.instant = dt.instant ∧
    dt.astimezoneUtc.utcOffsetSeconds = 0 ∧
    (0 ≤ dt.instant →
      ((get_seconds_since_epoch dt : ℚ) ≤ dt.instant ∧
        dt.instant - 1 < (get_seconds_since_epoch dt : ℚ))) ∧
    (dt.instant < 0 →
      (dt.instant ≤ (get_seconds_since_epoch dt : ℚ) ∧
        (get_seconds_since_epoch dt : ℚ) < dt.instant + 1)) := by
  refine ⟨rfl, rfl, rfl, ?_, ?_⟩
  · intro h
    unfold get_seconds_since_epoch AwareDatetime.astimezoneUtc
      AwareDatetime.timestamp pyInt
    rw [if_pos h]
    constructor
    · exact_mod_cast Int.floor_le dt.instant
    · have := Int.lt_floor_add_one dt.instant
      push_cast at this ⊢
      linarith
  · intro h
    unfold get_seconds_since_epoch AwareDatetime.astimezoneUtc
      AwareDatetime.timestamp pyInt
    rw [if_neg (by exact not_le.mpr h)]
    constructor
    · exact_mod_cast Int.le_ceil dt.instant
    · have := Int.ceil_lt_add_one dt.instant
      push_cast at this ⊢
      linarith

/-- Witness for claim C7 at the instant 7/2 seconds in a timezone 5 hours
west of UTC: the conversion truncates downward (to 3, not 4). -/
theorem claim_C7_witness :
    (0:ℚ) ≤ (7:ℚ)/2 ∧
    ((get_seconds_since_epoch { instant := (7:ℚ)/2, utcOffsetSeconds := -18000 } : ℚ) ≤
        (7:ℚ)/2 ∧
      (7:ℚ)/2 - 1 <
        (get_seconds_since_epoch { instant := (7:ℚ)/2, utcOffsetSeconds := -18000 } : ℚ)) :=
  ⟨by norm_num,
   (claim_C7 { instant := (7:ℚ)/2, utcOffsetSeconds := -18000 }).2.2.2.1 (by norm_num)⟩

/-- Claim C8: a `_request` call — and with it every endpoint wrapper,
since all of them route through `_request` — leaves the client state
unchanged: the source contains no assignment to `self.key_id`,
`self.private_key` or `self.base_url` outside `__init__`, so the caller
identifier, loaded private key and base URL after any call equal those
set at construction. -/
theorem claim_C8 (c : KalshiClient) (now : ℚ) (r : Req) (resp : HttpResponse) :
    (requestStateful c now r resp).1 = c ∧
    (requestStateful c now r resp).1.key_id = c.key_id ∧
    (requestStateful c now r resp).1.private_key = c.private_key ∧
    (requestStateful c now r resp).1.base_url = c.base_url :=
  ⟨rfl, rfl, rfl, rfl⟩

/-- Claim C9: for every combination of arguments, `create_quote` and
`create_rfq` pass the keyword `params` to `_post`, whose parameters are
only `endpoint` and `data`, and `batch_cancel_orders` passes two
positional arguments to `_delete`, which accepts one — so CPython's
argument binding rejects all three calls with a `TypeError` and no request
descriptor ever reaches the HTTP layer. -/
theorem claim_C9 :
    bindArgs postParamNames 1 ["params"] = false ∧
    bindArgs deleteParamNames 2 [] = false ∧
    (∀ rfq_id yes_bid no_bid rest_remainder : Option PyVal,
      (create_quote rfq_id yes_bid no_bid rest_remainder).isTypeErr = true) ∧
    (∀ market_ticker contracts rest_remainder : Option PyVal,
      (create_rfq market_ticker contracts rest_remainder).isTypeErr = true) ∧
    (∀ data : Jval, (batch_cancel_orders data).isTypeErr = true) := by
  refine ⟨by decide, by decide, ?_, ?_, ?_⟩ <;> (intros; rfl)

/-- Claim C10: in every header set produced by header generation, the
`KALSHI-ACCESS-TIMESTAMP` value is exactly the decimal
millisecond-timestamp string embedded in the signed message, and the
`KALSHI-ACCESS-KEY` value is the caller identifier supplied at
construction. -/
theorem claim_C10 (c : KalshiClient) (now : ℚ) (method path : String) :
    (generateHeaders c now method path).accessTimestamp =
      toString (get_curr_time_milliseconds now) ∧
    (generateHeaders c now method path).accessKey = c.key_id ∧
    signPayload (toString (get_curr_time_milliseconds now)) method path =
      (generateHeaders c now method path).accessTimestamp ++ "." ++
        pyUpper method ++ "." ++ path ∧
    (generateHeaders c now method path).accessSignature =
      c.private_key ((generateHeaders c now method path).accessTimestamp ++
        "." ++ pyUpper method ++ "." ++ path) :=
  ⟨rfl, rfl, rfl, rfl⟩
